import Mathlib

/-
  Verification development for the memsafe crate (secure memory cells).

  The model is a shallow embedding of src/lib.rs and src/gaurd.rs at the
  byte-representation level: an allocation is its byte contents plus the
  tracked hardware protection, lock, dump-exclusion and value-liveness
  status; the OS is an environment saying which primitive calls of the
  ffi layer fail.  A failed unwrap in the Rust source (a panic) is
  modelled as an Option none or an explicit panicked flag.
-/

namespace Memsafe

/-- Hardware page protection modes, mirroring the NoAccess, ReadOnly and
ReadWrite marker types of src/lib.rs. -/
inductive Prot where
  | noAccess
  | readOnly
  | readWrite
deriving DecidableEq, Repr

/-- The two platform families the source distinguishes with cfg attributes. -/
inductive Platform where
  | unix
  | windows
deriving DecidableEq, Repr

/-- The least-privilege floor state of each platform: construction and
low_priv call mem_noaccess under cfg(unix) and mem_readonly under
cfg(windows). -/
def floor : Platform → Prot
  | .unix => .noAccess
  | .windows => .readOnly

/-- Failure kinds of the memory primitive layer (src/ffi/mod.rs): each
primitive wraps the last OS error on failure. -/
inductive Err where
  | alloc
  | lock
  | noDump
  | protect
  | unlock
  | dealloc
deriving DecidableEq, Repr

/-- Environment standing for the OS: which primitive calls fail.  Protection
changes fail per target mode, matching one mprotect outcome per mode. -/
structure Env where
  allocFails : Bool
  lockFails : Bool
  noDumpFails : Bool
  protFails : Prot → Bool
  unlockFails : Bool
  deallocFails : Bool

/-- The protected allocation of one cell: its byte contents, tracked
protection, lock and dump-exclusion status, and whether the stored value
is still live (its destructor has not run). -/
structure Alloc where
  bytes : List Nat
  prot : Prot
  locked : Bool
  noDump : Bool
  valueLive : Bool
deriving DecidableEq, Repr

/-- Steps of the lifecycle, used to record which primitive and pointer
operations actually executed, in order. -/
inductive Step where
  | alloc
  | lock
  | noDump
  | writeValue
  | zeroDonor
  | protectTo (p : Prot)
  | dropInPlace
  | zeroRegion
  | unlock
  | dealloc
deriving DecidableEq, Repr

/-- Modelled from the spec: ptr_fill_zero is called by the source
(src/lib.rs line 89, src/gaurd.rs lines 95 and 145) but its body is absent
from src/raw_ptr.rs; the spec says the location "must be overwritten with
zero bytes", i.e. all sizeof bytes become 0. -/
def ptr_fill_zero (n : Nat) : List Nat := List.replicate n 0

/-- Embeds raw_ptr ptr_write as used in construction: the value
representation is written into the region and the stored value becomes
live. -/
def ptr_write (a : Alloc) (v : List Nat) : Alloc :=
  { a with bytes := v, valueLive := true }

/-- Embeds ptr_deref (raw_ptr.rs), the basis of every Deref impl: reading
through the pointer yields the byte representation stored in the region. -/
def ptr_deref (a : Alloc) : List Nat := a.bytes

/-- Embeds an assignment through DerefMut (ptr_deref_mut in raw_ptr.rs):
storing the representation x through the mutable reference. -/
def deref_mut_write (a : Alloc) (x : List Nat) : Alloc :=
  { a with bytes := x }

/-- Outcome of construction: the propagated error (none on success), the
region after the call returns (some means still mapped), and the bytes of
the donor location the value was moved out of. -/
structure NewOut where
  result : Option Err
  alloc : Option Alloc
  donor : List Nat
deriving DecidableEq, Repr

/-- Embeds MemSafe new under cfg(unix)/cfg(target_os = linux)
(src/lib.rs lines 81-95) and the identical MemSafePtr new
(src/gaurd.rs lines 82-106): mem_alloc, mem_lock, mem_no_dump, ptr_write,
ptr_fill_zero on the donor, then mem_noaccess; every failure propagates
with the question-mark operator and performs no cleanup. -/
def new (env : Env) (v : List Nat) : NewOut :=
  if env.allocFails then ⟨some .alloc, none, v⟩ else
  let a0 : Alloc := ⟨List.replicate v.length 0, .readWrite, false, false, false⟩
  if env.lockFails then ⟨some .lock, some a0, v⟩ else
  let a1 : Alloc := { a0 with locked := true }
  if env.noDumpFails then ⟨some .noDump, some a1, v⟩ else
  let a2 : Alloc := { a1 with noDump := true }
  let a3 : Alloc := ptr_write a2 v
  let d : List Nat := ptr_fill_zero v.length
  if env.protFails .noAccess then ⟨some .protect, some a3, d⟩ else
  ⟨none, some { a3 with prot := .noAccess }, d⟩

/-- Embeds MemSafe new under cfg(windows) (src/lib.rs lines 128-143):
same sequence without the dump-exclusion call, ending in mem_readonly. -/
def newWin (env : Env) (v : List Nat) : NewOut :=
  if env.allocFails then ⟨some .alloc, none, v⟩ else
  let a0 : Alloc := ⟨List.replicate v.length 0, .readWrite, false, false, false⟩
  if env.lockFails then ⟨some .lock, some a0, v⟩ else
  let a1 : Alloc := { a0 with locked := true }
  let a2 : Alloc := ptr_write a1 v
  let d : List Nat := ptr_fill_zero v.length
  if env.protFails .readOnly then ⟨some .protect, some a2, d⟩ else
  ⟨none, some { a2 with prot := .readOnly }, d⟩

/-- Outcome of the Drop impl: the steps that executed in order, whether an
unwrap panicked, the region at the instant mem_dealloc is entered (none if
never reached) and the region after drop ends (none means deallocated). -/
structure DropOut where
  trace : List Step
  panicked : Bool
  beforeDealloc : Option Alloc
  final : Option Alloc
deriving DecidableEq, Repr

/-- Embeds the Drop impl for MemSafe (src/lib.rs lines 247-255) and the
identical Drop for MemSafePtr (src/gaurd.rs lines 141-149):
mem_readwrite unwrap, ptr_drop_in_place, ptr_fill_zero, mem_unlock unwrap,
mem_dealloc unwrap.  A failed unwrap panics, so no later step runs. -/
def drop (env : Env) (a : Alloc) : DropOut :=
  if env.protFails .readWrite then ⟨[], true, none, some a⟩ else
  let a1 : Alloc := { a with prot := .readWrite }
  let a2 : Alloc := { a1 with valueLive := false }
  let a3 : Alloc := { a2 with bytes := ptr_fill_zero a2.bytes.length }
  if env.unlockFails then
    ⟨[.protectTo .readWrite, .dropInPlace, .zeroRegion], true, none, some a3⟩ else
  let a4 : Alloc := { a3 with locked := false }
  if env.deallocFails then
    ⟨[.protectTo .readWrite, .dropInPlace, .zeroRegion, .unlock], true, some a4, some a4⟩ else
  ⟨[.protectTo .readWrite, .dropInPlace, .zeroRegion, .unlock, .dealloc], false, some a4, none⟩

/-- Outcome of a state-changing typed-state transition: the propagated
error, the live region handed back (or what remains after the implicit
drop on the error path), the steps that implicit drop executed, and
whether it panicked. -/
structure TransOut where
  result : Option Err
  alloc : Option Alloc
  dropTrace : List Step
  panicked : Bool
deriving DecidableEq, Repr

/-- Embeds the state-changing read_only methods (src/lib.rs lines 103-111
and 187-195): mem_readonly with the question-mark operator; on failure the
consumed self is dropped while the error propagates, on success mem forget
skips drop and the handle is rebuilt in the ReadOnly type. -/
def read_only (env : Env) (a : Alloc) : TransOut :=
  if env.protFails .readOnly then
    let d := drop env a
    ⟨some .protect, d.final, d.trace, d.panicked⟩
  else ⟨none, some { a with prot := .readOnly }, [], false⟩

/-- Embeds the state-changing read_write methods (src/lib.rs lines 114-122
and 162-170), analogous to read_only with target ReadWrite. -/
def read_write (env : Env) (a : Alloc) : TransOut :=
  if env.protFails .readWrite then
    let d := drop env a
    ⟨some .protect, d.final, d.trace, d.panicked⟩
  else ⟨none, some { a with prot := .readWrite }, [], false⟩

/-- Embeds the state-changing no_access methods (src/lib.rs lines 146-154
and 176-184), analogous to read_only with target NoAccess. -/
def no_access (env : Env) (a : Alloc) : TransOut :=
  if env.protFails .noAccess then
    let d := drop env a
    ⟨some .protect, d.final, d.trace, d.panicked⟩
  else ⟨none, some { a with prot := .noAccess }, [], false⟩

/-- Embeds the identity transition no_access on the NoAccess type
(src/lib.rs lines 98-100): Ok(self) with error type Infallible, no
primitive call; the second component lists the primitive calls made. -/
def no_access_id (a : Alloc) : Except Empty Alloc × List Step :=
  (Except.ok a, [])

/-- Embeds the identity transition read_only on the ReadOnly type
(src/lib.rs lines 157-159): Ok(self), no primitive call. -/
def read_only_id (a : Alloc) : Except Empty Alloc × List Step :=
  (Except.ok a, [])

/-- Embeds the identity transition read_write on the ReadWrite type
(src/lib.rs lines 198-200): Ok(self), no primitive call. -/
def read_write_id (a : Alloc) : Except Empty Alloc × List Step :=
  (Except.ok a, [])

end Memsafe

namespace Memsafe.Gaurd

/-- Embeds MemSafePtr readonly (src/gaurd.rs lines 118-120):
mem_readonly(...).unwrap(); none models the panic of a failed unwrap. -/
def readonly (env : Env) (a : Alloc) : Option Alloc :=
  if env.protFails .readOnly then none else some { a with prot := .readOnly }

/-- Embeds MemSafePtr readwrite (src/gaurd.rs lines 122-124):
mem_readwrite(...).unwrap(). -/
def readwrite (env : Env) (a : Alloc) : Option Alloc :=
  if env.protFails .readWrite then none else some { a with prot := .readWrite }

/-- Embeds MemSafePtr low_priv (src/gaurd.rs lines 108-116): mem_noaccess
under cfg(unix), mem_readonly under cfg(windows), each unwrapped. -/
def low_priv (pf : Platform) (env : Env) (a : Alloc) : Option Alloc :=
  if env.protFails (floor pf) then none else some { a with prot := floor pf }

/-- Embeds MemSafe read of the guard API (src/gaurd.rs lines 23-26): calls
readonly on the inner pointer, then hands out the read guard. -/
def read (env : Env) (a : Alloc) : Option Alloc := readonly env a

/-- Embeds MemSafe write of the guard API (src/gaurd.rs lines 28-31): calls
readwrite on the inner pointer, then hands out the write guard. -/
def write (env : Env) (a : Alloc) : Option Alloc := readwrite env a

/-- The user-visible guard events: acquiring a read guard, acquiring a
write guard, and a guard going out of scope (its Drop calls low_priv). -/
inductive GuardOp where
  | acquireRead
  | acquireWrite
  | release
deriving DecidableEq, Repr

/-- One guard event acting on the cell, routed through the embedded
MemSafePtr operations. -/
def guardStep (pf : Platform) (env : Env) (op : GuardOp) (a : Alloc) : Option Alloc :=
  match op with
  | .acquireRead => readonly env a
  | .acquireWrite => readwrite env a
  | .release => low_priv pf env a

/-- Runs a sequence of guard events on a cell; none means some unwrap
panicked along the way. -/
def guardRun (pf : Platform) (env : Env) (a : Alloc) (ops : List GuardOp) : Option Alloc :=
  ops.foldl (fun s op => s.bind (guardStep pf env op)) (some a)

end Memsafe.Gaurd

namespace Memsafe

/-- An environment in which every primitive call succeeds. -/
def env0 : Env := ⟨false, false, false, fun _ => false, false, false⟩

/-- An environment in which exactly mem_lock fails. -/
def envLockFail : Env := ⟨false, true, false, fun _ => false, false, false⟩

/-- An environment in which exactly the protection change to NoAccess
fails. -/
def envProtNAFail : Env :=
  ⟨false, false, false, fun p => match p with | .noAccess => true | _ => false, false, false⟩

/-- An environment in which exactly the protection change to ReadWrite
fails. -/
def envProtRWFail : Env :=
  ⟨false, false, false, fun p => match p with | .readWrite => true | _ => false, false, false⟩

/-- An environment in which exactly the protection change to ReadOnly
fails. -/
def envProtROFail : Env :=
  ⟨false, false, false, fun p => match p with | .readOnly => true | _ => false, false, false⟩

/-- An environment in which the protection changes to ReadOnly and to
NoAccess fail while everything else, including the change to ReadWrite,
succeeds. -/
def envRoNaFail : Env :=
  ⟨false, false, false, fun p => match p with | .readWrite => false | _ => true, false, false⟩

/-- The state of a cell region as produced by a successful unix
construction over the byte representation v. -/
def mkAlloc (v : List Nat) : Alloc := ⟨v, .noAccess, true, true, true⟩

/-- A concrete 16-byte cell region holding bytes 0,...,15. -/
def buf16 : Alloc := mkAlloc (List.range 16)

/-- The 1024-byte pattern whose byte at index i is i mod 256. -/
def pattern1024 : List Nat := (List.range 1024).map (fun i => i % 256)

/-- A concrete cell region over the 1024-byte pattern buffer. -/
def buf1024 : Alloc := mkAlloc pattern1024

end Memsafe

namespace Memsafe

/-- C7: for every typed-state handle, the identity transitions no_access on
NoAccess, read_only on ReadOnly and read_write on ReadWrite succeed, make
no primitive protect call, cannot fail (their error type is empty), and
return the handle unchanged. -/
theorem C7_identity_noop (a : Alloc) :
    no_access_id a = (Except.ok a, []) ∧
    read_only_id a = (Except.ok a, []) ∧
    read_write_id a = (Except.ok a, []) ∧
    (no_access_id a).1.isOk = true ∧
    (read_only_id a).1.isOk = true ∧
    (read_write_id a).1.isOk = true :=
  ⟨rfl, rfl, rfl, rfl, rfl, rfl⟩

/-- C1: for every value v passed to construction, the donor location that
held v is all-zero bytes immediately after a successful construction
returns, and the protected region holds the live copy of the
representation of v. -/
theorem C1_construct_zeroes_donor (env : Env) (v : List Nat)
    (h : (new env v).result = none) :
    (new env v).donor = List.replicate v.length 0 ∧
    ∃ a, (new env v).alloc = some a ∧ a.bytes = v ∧ a.valueLive = true := by
  unfold new at h ⊢
  by_cases hA : env.allocFails
  · simp [hA] at h
  · by_cases hL : env.lockFails
    · simp [hA, hL] at h
    · by_cases hD : env.noDumpFails
      · simp [hA, hL, hD] at h
      · by_cases hP : env.protFails .noAccess
        · simp [hA, hL, hD, hP] at h
        · simp [hA, hL, hD, hP, ptr_write, ptr_fill_zero]

/-- C1 witness: the concrete value bytes 1,2,3 in the all-success
environment. -/
theorem C1_construct_zeroes_donor_witness :
    (new env0 [1, 2, 3]).result = none ∧
    ((new env0 [1, 2, 3]).donor = List.replicate 3 0 ∧
      ∃ a, (new env0 [1, 2, 3]).alloc = some a ∧ a.bytes = [1, 2, 3] ∧ a.valueLive = true) :=
  ⟨by decide, C1_construct_zeroes_donor env0 [1, 2, 3] (by decide)⟩

/-- C2: when the destruction-path primitives succeed, destruction performs
exactly protect-to-ReadWrite, in-place destructor, zeroing of all bytes,
unlock, deallocate, in this order, and the backing bytes are entirely zero
at the instant just before deallocation. -/
theorem C2_drop_order_and_zero (env : Env) (a : Alloc)
    (hp : env.protFails .readWrite = false)
    (hu : env.unlockFails = false)
    (hd : env.deallocFails = false) :
    (drop env a).trace =
      [Step.protectTo .readWrite, Step.dropInPlace, Step.zeroRegion,
        Step.unlock, Step.dealloc] ∧
    (∃ b, (drop env a).beforeDealloc = some b ∧
      b.bytes = List.replicate a.bytes.length 0 ∧
      b.valueLive = false ∧ b.locked = false) ∧
    (drop env a).final = none := by
  unfold drop
  simp [hp, hu, hd, ptr_fill_zero]

/-- C2 witness: the 1024-byte buffer filled with the pattern i mod 256, in
the all-success environment. -/
theorem C2_drop_order_and_zero_witness :
    (env0.protFails .readWrite = false ∧ env0.unlockFails = false ∧
      env0.deallocFails = false) ∧
    ((drop env0 buf1024).trace =
      [Step.protectTo .readWrite, Step.dropInPlace, Step.zeroRegion,
        Step.unlock, Step.dealloc] ∧
    (∃ b, (drop env0 buf1024).beforeDealloc = some b ∧
      b.bytes = List.replicate buf1024.bytes.length 0 ∧
      b.valueLive = false ∧ b.locked = false) ∧
    (drop env0 buf1024).final = none) :=
  ⟨⟨rfl, rfl, rfl⟩, C2_drop_order_and_zero env0 buf1024 rfl rfl rfl⟩

end Memsafe

namespace Memsafe

/-- Helper: a successful low_priv always leaves the platform floor
protection. -/
theorem Gaurd.low_priv_prot (pf : Platform) (env : Env) (c b : Alloc)
    (h : Gaurd.low_priv pf env c = some b) : b.prot = floor pf := by
  unfold Gaurd.low_priv at h
  by_cases hf : env.protFails (floor pf)
  · simp [hf] at h
  · simp [hf] at h
    rw [← h]

/-- C3 counterexample: with mem_lock failing after a successful
allocation, construction returns the lock error yet the region stays
mapped — the completed allocation step is not unwound, so the allocation
leaks, refuting the no-leak claim. -/
theorem C3_cex_lock_failure_leaks :
    (new envLockFail [7]).result = some Err.lock ∧
    (new envLockFail [7]).alloc ≠ none := by decide

/-- C3 amended: if any step of construction fails after the allocation
step succeeded, construction returns that error to the caller but unwinds
nothing: the region is still mapped when the error is returned, and it is
still locked whenever the lock step had succeeded. -/
theorem C3_no_unwind_on_failure (env : Env) (v : List Nat) (e : Err)
    (h : (new env v).result = some e) (hA : env.allocFails = false) :
    ∃ a, (new env v).alloc = some a ∧
      (env.lockFails = false → a.locked = true) := by
  unfold new at h ⊢
  by_cases hL : env.lockFails
  · simp [hA, hL]
  · by_cases hD : env.noDumpFails
    · simp [hA, hL, hD]
    · by_cases hP : env.protFails .noAccess
      · simp [hA, hL, hD, hP, ptr_write]
      · simp [hA, hL, hD, hP] at h

/-- C3 amended witness: a failing protection change in an otherwise
healthy environment, at the concrete value byte 9. -/
theorem C3_no_unwind_on_failure_witness :
    ((new envProtNAFail [9]).result = some Err.protect ∧
      envProtNAFail.allocFails = false) ∧
    ∃ a, (new envProtNAFail [9]).alloc = some a ∧
      (envProtNAFail.lockFails = false → a.locked = true) :=
  ⟨⟨by decide, rfl⟩,
    C3_no_unwind_on_failure envProtNAFail [9] Err.protect (by decide) rfl⟩

/-- C4 counterexample: when the protection change to ReadWrite fails at
the start of destruction, the unwrap panics and no remaining step runs;
in particular the zeroing step is not executed on this destruction path,
refuting the log-and-continue claim. -/
theorem C4_cex_zero_skipped_on_panic :
    (drop envProtRWFail buf16).panicked = true ∧
    (drop envProtRWFail buf16).trace = [] ∧
    Step.zeroRegion ∉ (drop envProtRWFail buf16).trace := by decide

/-- C4 amended: destruction does not continue past a failed unwrap: the
zeroing step executes exactly when the initial protection change
succeeds; destruction panics exactly when the protection change, the
unlock or the deallocation fails; and a protection-change failure aborts
the sequence with no step executed at all. -/
theorem C4_drop_abort_behaviour (env : Env) (a : Alloc) :
    (Step.zeroRegion ∈ (drop env a).trace ↔ env.protFails .readWrite = false) ∧
    ((drop env a).panicked =
      (env.protFails .readWrite || env.unlockFails || env.deallocFails)) ∧
    ((drop env a).trace = [] ↔ env.protFails .readWrite = true) := by
  cases hp : env.protFails .readWrite
  · cases hu : env.unlockFails
    · cases hd : env.deallocFails
      · simp [drop, hp, hu, hd]
      · simp [drop, hp, hu, hd]
    · simp [drop, hp, hu]
  · simp [drop, hp]

/-- C5: immediately after a successful construction and immediately after
every guard release, the tracked protection (which the source keeps equal
to the OS-level protection) is the platform floor: NoAccess on unix,
ReadOnly on windows, for every completed sequence of guard acquisitions
and releases. -/
theorem C5_floor_invariant :
    (∀ env v, (new env v).result = none →
      ∃ a, (new env v).alloc = some a ∧ a.prot = floor .unix) ∧
    (∀ env v, (newWin env v).result = none →
      ∃ a, (newWin env v).alloc = some a ∧ a.prot = floor .windows) ∧
    (∀ pf env a ops b,
      Gaurd.guardRun pf env a (ops ++ [Gaurd.GuardOp.release]) = some b →
      b.prot = floor pf) := by
  refine ⟨?_, ?_, ?_⟩
  · intro env v h
    unfold new at h ⊢
    by_cases hA : env.allocFails
    · simp [hA] at h
    · by_cases hL : env.lockFails
      · simp [hA, hL] at h
      · by_cases hD : env.noDumpFails
        · simp [hA, hL, hD] at h
        · by_cases hP : env.protFails .noAccess
          · simp [hA, hL, hD, hP] at h
          · simp [hA, hL, hD, hP, floor]
  · intro env v h
    unfold newWin at h ⊢
    by_cases hA : env.allocFails
    · simp [hA] at h
    · by_cases hL : env.lockFails
      · simp [hA, hL] at h
      · by_cases hP : env.protFails .readOnly
        · simp [hA, hL, hP] at h
        · simp [hA, hL, hP, floor]
  · intro pf env a ops b h
    unfold Gaurd.guardRun at h
    rw [List.foldl_append] at h
    cases hprev : List.foldl
        (fun s op => s.bind (Gaurd.guardStep pf env op)) (some a) ops with
    | none => rw [hprev] at h; simp at h
    | some c =>
      rw [hprev] at h
      simp only [List.foldl, Option.bind] at h
      exact Gaurd.low_priv_prot pf env c b h

/-- C5 witness: construction of the byte 5 on both platforms and an
acquire-write followed by a release on the concrete 16-byte cell, in the
all-success environment. -/
theorem C5_floor_invariant_witness :
    ((new env0 [5]).result = none ∧
      ∃ a, (new env0 [5]).alloc = some a ∧ a.prot = floor .unix) ∧
    ((newWin env0 [5]).result = none ∧
      ∃ a, (newWin env0 [5]).alloc = some a ∧ a.prot = floor .windows) ∧
    (Gaurd.guardRun .unix env0 buf16
        ([Gaurd.GuardOp.acquireWrite] ++ [Gaurd.GuardOp.release]) = some buf16 ∧
      buf16.prot = floor .unix) :=
  ⟨⟨by decide, C5_floor_invariant.1 env0 [5] (by decide)⟩,
    ⟨by decide, C5_floor_invariant.2.1 env0 [5] (by decide)⟩,
    by decide,
    C5_floor_invariant.2.2 .unix env0 buf16 [Gaurd.GuardOp.acquireWrite] buf16 (by decide)⟩

end Memsafe

namespace Memsafe

/-- C6 counterexample: acquiring a read guard when the protection change
to ReadOnly fails does not surface an error value: the source unwraps the
protect result inside MemSafePtr readonly, so the acquisition panics
(modelled as none), refuting the claim that every explicit transition
propagates a reportable error to the caller. -/
theorem C6_cex_guard_read_panics :
    envProtROFail.protFails .readOnly = true ∧
    Gaurd.read envProtROFail buf16 = none := by decide

/-- C6 amended: the state-changing typed-state transitions surface a
failed protect call as an error value (though the implicit drop of the
consumed handle can itself panic when the destruction-path unwraps fail),
while the guard API acquisitions and the guard release unwrap the protect
result and panic, returning no error value, exactly when that protect
call fails. -/
theorem C6_transition_failure_reporting (env : Env) (a : Alloc) :
    ((read_only env a).result =
      (if env.protFails .readOnly then some Err.protect else none)) ∧
    ((read_write env a).result =
      (if env.protFails .readWrite then some Err.protect else none)) ∧
    ((no_access env a).result =
      (if env.protFails .noAccess then some Err.protect else none)) ∧
    ((Gaurd.read env a).isNone = env.protFails .readOnly) ∧
    ((Gaurd.write env a).isNone = env.protFails .readWrite) ∧
    ((Gaurd.low_priv .unix env a).isNone = env.protFails .noAccess) ∧
    ((Gaurd.low_priv .windows env a).isNone = env.protFails .readOnly) := by
  refine ⟨?_, ?_, ?_, ?_, ?_, ?_, ?_⟩
  · cases h : env.protFails .readOnly <;> simp [read_only, h]
  · cases h : env.protFails .readWrite <;> simp [read_write, h]
  · cases h : env.protFails .noAccess <;> simp [no_access, h]
  · cases h : env.protFails .readOnly <;> simp [Gaurd.read, Gaurd.readonly, h]
  · cases h : env.protFails .readWrite <;> simp [Gaurd.write, Gaurd.readwrite, h]
  · cases h : env.protFails .noAccess <;> simp [Gaurd.low_priv, floor, h]
  · cases h : env.protFails .readOnly <;> simp [Gaurd.low_priv, floor, h]

/-- C8: writing the representation x through a write guard, dropping the
guard (which lowers to the floor), then reading through a read guard
yields exactly x; likewise writing x through the ReadWrite typed-state
handle, transitioning to ReadOnly, and dereferencing yields exactly x. -/
theorem C8_roundtrip (pf : Platform) (env : Env) (a : Alloc) (x : List Nat)
    (hro : env.protFails .readOnly = false)
    (hrw : env.protFails .readWrite = false)
    (hf : env.protFails (floor pf) = false) :
    (((Gaurd.write env a).map (fun w => deref_mut_write w x)).bind
        (fun w => Gaurd.low_priv pf env w)).bind
        (fun c => (Gaurd.read env c).map ptr_deref) = some x ∧
    (∃ b, (read_only env (deref_mut_write a x)).alloc = some b ∧
      ptr_deref b = x) := by
  constructor
  · simp [Gaurd.write, Gaurd.readwrite, Gaurd.read, Gaurd.readonly,
      Gaurd.low_priv, deref_mut_write, ptr_deref, hro, hrw, hf]
  · simp [read_only, hro, deref_mut_write, ptr_deref]

/-- C8 witness: the 16-byte pattern 0,...,15 round-tripped through the
concrete 16-byte cell on unix in the all-success environment. -/
theorem C8_roundtrip_witness :
    (env0.protFails .readOnly = false ∧ env0.protFails .readWrite = false ∧
      env0.protFails (floor .unix) = false) ∧
    ((((Gaurd.write env0 buf16).map
          (fun w => deref_mut_write w (List.range 16))).bind
        (fun w => Gaurd.low_priv .unix env0 w)).bind
        (fun c => (Gaurd.read env0 c).map ptr_deref) = some (List.range 16) ∧
    (∃ b, (read_only env0 (deref_mut_write buf16 (List.range 16))).alloc = some b ∧
      ptr_deref b = List.range 16)) :=
  ⟨⟨rfl, rfl, rfl⟩, C8_roundtrip .unix env0 buf16 (List.range 16) rfl rfl rfl⟩

/-- C10 counterexample: when the protect call inside the read_write
transition fails, the implicit drop of the consumed handle re-attempts
that same failing protect call and its unwrap panics: the error is not
returned, no destruction step runs (nothing is zeroed), and the
allocation stays mapped, so the failed transition leaks the allocation
instead of irrecoverably destroying the value. -/
theorem C10_cex_read_write_failure_panics :
    envProtRWFail.protFails .readWrite = true ∧
    (read_write envProtRWFail buf16).panicked = true ∧
    (read_write envProtRWFail buf16).alloc ≠ none ∧
    (read_write envProtRWFail buf16).dropTrace = [] := by decide

/-- C10 amended: if the protect call inside the read_only or no_access
transition fails while the destruction-path primitives succeed, the
consumed input handle is dropped before the error is returned, running
the full destruction sequence — destructor, zeroing, unlock, deallocate —
so the transition returns the protect error, no usable cell remains and
no allocation is leaked; when the failing target is ReadWrite itself the
implicit drop re-attempts the same protect call and panics instead. -/
theorem C10_failed_transition_destroys (env : Env) (a : Alloc)
    (hrw : env.protFails .readWrite = false)
    (hu : env.unlockFails = false) (hd : env.deallocFails = false) :
    (env.protFails .readOnly = true →
      (read_only env a).result = some Err.protect ∧
      (read_only env a).panicked = false ∧
      (read_only env a).alloc = none ∧
      (read_only env a).dropTrace =
        [Step.protectTo .readWrite, Step.dropInPlace, Step.zeroRegion,
          Step.unlock, Step.dealloc]) ∧
    (env.protFails .noAccess = true →
      (no_access env a).result = some Err.protect ∧
      (no_access env a).panicked = false ∧
      (no_access env a).alloc = none ∧
      (no_access env a).dropTrace =
        [Step.protectTo .readWrite, Step.dropInPlace, Step.zeroRegion,
          Step.unlock, Step.dealloc]) := by
  constructor
  · intro h
    simp [read_only, drop, h, hrw, hu, hd]
  · intro h
    simp [no_access, drop, h, hrw, hu, hd]

/-- C10 amended witness: the concrete 16-byte cell in the environment
where the protection changes to ReadOnly and NoAccess fail but the
destruction path succeeds. -/
theorem C10_failed_transition_destroys_witness :
    (envRoNaFail.protFails .readWrite = false ∧
      envRoNaFail.protFails .readOnly = true ∧
      envRoNaFail.protFails .noAccess = true) ∧
    ((read_only envRoNaFail buf16).result = some Err.protect ∧
      (read_only envRoNaFail buf16).panicked = false ∧
      (read_only envRoNaFail buf16).alloc = none ∧
      (read_only envRoNaFail buf16).dropTrace =
        [Step.protectTo .readWrite, Step.dropInPlace, Step.zeroRegion,
          Step.unlock, Step.dealloc]) ∧
    ((no_access envRoNaFail buf16).result = some Err.protect ∧
      (no_access envRoNaFail buf16).panicked = false ∧
      (no_access envRoNaFail buf16).alloc = none ∧
      (no_access envRoNaFail buf16).dropTrace =
        [Step.protectTo .readWrite, Step.dropInPlace, Step.zeroRegion,
          Step.unlock, Step.dealloc]) :=
  ⟨⟨rfl, rfl, rfl⟩,
    (C10_failed_transition_destroys envRoNaFail buf16 rfl rfl rfl).1 rfl,
    (C10_failed_transition_destroys envRoNaFail buf16 rfl rfl rfl).2 rfl⟩

end Memsafe
